import Mathlib

/-!
Shallow embedding of the x402Escrow Solana program
(`src/contract/src/lib.rs`) and proofs about its listing state machine.

Machine integers (`u64`, `u128`, `u8`) are modelled as `Nat` with explicit
range checks where the Rust code performs checked arithmetic or narrowing
conversions.  Account references become explicit record fields; the host
platform primitives (PDA derivation `find_program_address` /
`create_program_address`, the associated-token-address derivation, and the
keccak digest) are external collaborators and enter as function parameters.
Fallible handlers return `Except ProgramError`; the host's atomicity means a
returned error leaves the persisted listing unchanged, so an error result
carries no new state and no transfers.
-/

/-- Decidable equality for `Except` results, so that witnesses can be checked
by evaluation. -/
instance {ε α : Type} [DecidableEq ε] [DecidableEq α] : DecidableEq (Except ε α) := fun a b =>
  match a, b with
  | .error e, .error f =>
    if h : e = f then isTrue (congrArg Except.error h)
    else isFalse (fun hh => h (by injection hh))
  | .ok x, .ok y =>
    if h : x = y then isTrue (congrArg Except.ok h)
    else isFalse (fun hh => h (by injection hh))
  | .error _, .ok _ => isFalse (fun hh => by injection hh)
  | .ok _, .error _ => isFalse (fun hh => by injection hh)

namespace X402Escrow

/-- On-chain addresses, modelled as natural numbers with decidable equality. -/
abbrev Pubkey := Nat

/-- `2 ^ 64`, the exclusive upper bound of `u64`. -/
def u64_bound : Nat := 2 ^ 64

/-- `2 ^ 128`, the exclusive upper bound of `u128`. -/
def u128_bound : Nat := 2 ^ 128

/-- `u64::try_from` on a `u128` value: succeeds exactly when the value fits. -/
def u64_try_from (x : Nat) : Option Nat :=
  if x < u64_bound then some x else none

/-- `u128::checked_mul`: the product, unless it overflows 128 bits. -/
def u128_checked_mul (a b : Nat) : Option Nat :=
  if a * b < u128_bound then some (a * b) else none

/-- `10u128.checked_pow(d)`: `10 ^ d`, unless it overflows 128 bits. -/
def checked_pow10 (d : Nat) : Option Nat :=
  if 10 ^ d < u128_bound then some (10 ^ d) else none

/-- `u64::checked_add`: the sum, unless it overflows 64 bits. -/
def u64_checked_add (a b : Nat) : Option Nat :=
  if a + b < u64_bound then some (a + b) else none

/-- Escrow program specific errors (`EscrowError` in the source). -/
inductive EscrowError
  | InvalidInstructionData
  | AccountLengthMismatch
  | AlreadyInitialized
  | IncorrectAuthority
  | InvalidListingStatus
  | AmountOverflow
  | MintMismatch
  | InsufficientQuantity
  | PartialFillDisabled
  | InvalidX402Proof
  | X402AmountMismatch
  deriving DecidableEq, Repr

/-- The `ProgramError` values this program can surface: its own custom errors
plus the host-level errors used by the handlers.  `PrivilegeEscalation` models
the host rejecting an `invoke_signed` whose seed list does not derive the
claimed signer address. -/
inductive ProgramError
  | Custom : EscrowError → ProgramError
  | MissingRequiredSignature
  | IncorrectProgramId
  | InsufficientFunds
  | PrivilegeEscalation
  deriving DecidableEq, Repr

/-- Possible execution states of a listing (`ListingStatus`). -/
inductive ListingStatus
  | AwaitingDeposit
  | Active
  | Completed
  | Cancelled
  deriving DecidableEq, Repr

/-- Numeric on-wire encoding of a status (`ListingStatus::as_u8`). -/
def ListingStatus.as_u8 : ListingStatus → Nat
  | .AwaitingDeposit => 0
  | .Active => 1
  | .Completed => 2
  | .Cancelled => 3

/-- `ListingStatus::from_u8` (derived `FromPrimitive`): decode a status byte. -/
def ListingStatus.from_u8 : Nat → Option ListingStatus
  | 0 => some .AwaitingDeposit
  | 1 => some .Active
  | 2 => some .Completed
  | 3 => some .Cancelled
  | _ => none

/-- Persistent listing state stored on-chain (`Listing`). -/
structure Listing where
  seller : Pubkey
  base_mint : Pubkey
  quote_mint : Pubkey
  vault_authority : Pubkey
  price_per_token : Nat
  quantity : Nat
  filled : Nat
  listing_id : Nat
  flags : Nat
  vault_bump : Nat
  status : Nat
  base_decimals : Nat
  fee_payment_method : Nat
  fee_amount_paid : Nat
  x402_payload_hash : List Nat
  deriving DecidableEq, Repr

/-- `Listing::LEN`: number of bytes required to store the listing. -/
def Listing.LEN : Nat := 32 + 32 + 32 + 32 + 8 + 8 + 8 + 8 + 1 + 1 + 1 + 1 + 1 + 8 + 32

/-- `Listing::allow_partial`: bit 0 of `flags`. -/
def Listing.allowPartial (l : Listing) : Bool := l.flags &&& 1 == 1

/-- `Listing::remaining`: `quantity.saturating_sub(filled)`; `Nat`
subtraction is exactly saturating subtraction. -/
def Listing.remaining (l : Listing) : Nat := l.quantity - l.filled

/-- `Listing::status()`: decode the status byte, defaulting to `Cancelled`
(`unwrap_or(ListingStatus::Cancelled)`). -/
def Listing.status' (l : Listing) : ListingStatus :=
  (ListingStatus.from_u8 l.status).getD ListingStatus.Cancelled

/-- `Listing::set_status`. -/
def Listing.set_status (l : Listing) (s : ListingStatus) : Listing :=
  { l with status := ListingStatus.as_u8 s }

/-- The fields of an SPL token account the program reads
(`spl_token::state::Account`), assumed already unpacked. -/
structure TokenAccount where
  mint : Pubkey
  owner : Pubkey
  amount : Nat
  deriving DecidableEq, Repr

/-- One SPL token transfer issued by the program: source account, destination
account, authorizing address, and amount. -/
structure Transfer where
  source : Pubkey
  destination : Pubkey
  authority : Pubkey
  amount : Nat
  deriving DecidableEq, Repr

/-- The state of the listing account as a handler receives it: whether the
account is owned by this program, its data length, whether the bytes Borsh
decode into a `Listing`, and the decoded listing when they do. -/
structure ListingAccount where
  owner_is_program : Bool
  data_len : Nat
  parse_ok : Bool
  stored : Listing
  deriving DecidableEq, Repr

/-- `deserialize_listing`: owner check, then length check, then decode. -/
def deserialize_listing (a : ListingAccount) : Except ProgramError Listing :=
  if a.owner_is_program = false then .error .IncorrectProgramId
  else if a.data_len < Listing.LEN then .error (.Custom .AccountLengthMismatch)
  else if a.parse_ok = false then .error (.Custom .InvalidInstructionData)
  else .ok a.stored

/-- `serialize_listing`: the length guard; a buffer of at least `Listing.LEN`
bytes always accommodates the fixed-size Borsh encoding, so serialization
succeeds past the guard and the written record is returned. -/
def serialize_listing (data_len : Nat) (l : Listing) : Except ProgramError Listing :=
  if data_len < Listing.LEN then .error (.Custom .AccountLengthMismatch)
  else .ok l

/-- `assert_token_account_owner`. -/
def assert_token_account_owner (account : TokenAccount) (owner : Pubkey) :
    Except ProgramError Unit :=
  if account.owner ≠ owner then .error (.Custom .IncorrectAuthority) else .ok ()

/-- `assert_token_account_mint`. -/
def assert_token_account_mint (account : TokenAccount) (mint : Pubkey) :
    Except ProgramError Unit :=
  if account.mint ≠ mint then .error (.Custom .MintMismatch) else .ok ()

/-- `verify_x402_payment`: stub accepting any non-empty payload and returning
its digest; the digest function is a host primitive passed as a parameter. -/
def verify_x402_payment (keccakHash : String → List Nat) (payload : String)
    (_expected_amount : Nat) : Except ProgramError (List Nat) :=
  if payload.isEmpty then .error (.Custom .InvalidX402Proof)
  else .ok (keccakHash payload)

/-- The host's `invoke_signed` on a token transfer whose authority is the
derived vault PDA: the host re-derives `create_program_address("vault",
seller, listing_id, bump)` and grants signer privilege only if it equals the
transfer's authority; otherwise the invocation fails. -/
def invoke_signed_transfer (createPA : Pubkey → Nat → Nat → Option Pubkey)
    (seller : Pubkey) (listing_id vault_bump : Nat) (tr : Transfer) :
    Except ProgramError Transfer :=
  match createPA seller listing_id vault_bump with
  | none => .error .PrivilegeEscalation
  | some pk => if pk = tr.authority then .ok tr else .error .PrivilegeEscalation

/-- Accounts and pre-read data supplied to `initialize_listing`.
`system_program_ok` models `system_program_info.key == system_program::ID`,
and `base_mint_decimals` the unpacked `Mint::decimals`. -/
structure InitAccounts where
  seller_key : Pubkey
  seller_is_signer : Bool
  listing_owner_is_program : Bool
  listing_data : List Nat
  vault_authority_key : Pubkey
  vault_token_key : Pubkey
  base_mint_key : Pubkey
  quote_mint_key : Pubkey
  system_program_ok : Bool
  base_mint_decimals : Nat
  deriving DecidableEq, Repr

/-- `initialize_listing`.  `findPA` models
`Pubkey::find_program_address(["vault", seller, listing_id])` (address and
bump), `ata` models `get_associated_token_address`, `keccakHash` the digest
primitive.  `checked_div(100)` always succeeds for the literal divisor and is
the plain floor division. -/
def initialize_listing (findPA : Pubkey → Nat → Pubkey × Nat)
    (ata : Pubkey → Pubkey → Pubkey) (keccakHash : String → List Nat)
    (acc : InitAccounts) (listing_id price_per_token quantity : Nat)
    (allowPartial : Bool) (fee_payment_method : Nat)
    (x402_payload : Option String) : Except ProgramError Listing :=
  if quantity = 0 ∨ price_per_token = 0 then .error (.Custom .AmountOverflow)
  else if acc.seller_is_signer = false then .error .MissingRequiredSignature
  else if acc.listing_owner_is_program = false then .error .IncorrectProgramId
  else if acc.listing_data.any (fun b => b ≠ 0) then .error (.Custom .AlreadyInitialized)
  else if acc.system_program_ok = false then .error .IncorrectProgramId
  else
  let fpa := findPA acc.seller_key listing_id
  if acc.vault_authority_key ≠ fpa.1 then .error (.Custom .IncorrectAuthority)
  else if acc.vault_token_key ≠ ata acc.vault_authority_key acc.base_mint_key then
    .error (.Custom .MintMismatch)
  else
  match u128_checked_mul price_per_token quantity with
  | none => .error (.Custom .AmountOverflow)
  | some trade_value =>
  let fee_amount := trade_value / 100
  match u64_try_from fee_amount with
  | none => .error (.Custom .AmountOverflow)
  | some fee_amount_u64 =>
  let hashRes : Except ProgramError (List Nat) :=
    match fee_payment_method with
    | 1 =>
      match x402_payload with
      | none => .error (.Custom .InvalidX402Proof)
      | some payload => verify_x402_payment keccakHash payload fee_amount_u64
    | 0 => .ok (List.replicate 32 0)
    | _ => .error (.Custom .InvalidInstructionData)
  match hashRes with
  | .error e => .error e
  | .ok x402_payload_hash =>
  serialize_listing acc.listing_data.length
    { seller := acc.seller_key
      base_mint := acc.base_mint_key
      quote_mint := acc.quote_mint_key
      vault_authority := acc.vault_authority_key
      price_per_token := price_per_token
      quantity := quantity
      filled := 0
      listing_id := listing_id
      flags := if allowPartial then 1 else 0
      vault_bump := fpa.2
      status := ListingStatus.as_u8 ListingStatus.AwaitingDeposit
      base_decimals := acc.base_mint_decimals
      fee_payment_method := fee_payment_method
      fee_amount_paid := fee_amount_u64
      x402_payload_hash := x402_payload_hash }

/-- Accounts supplied to `deposit_tokens`. -/
structure DepositAccounts where
  seller_key : Pubkey
  seller_is_signer : Bool
  listing : ListingAccount
  seller_token_key : Pubkey
  seller_token : TokenAccount
  vault_authority_key : Pubkey
  vault_token_key : Pubkey
  vault_token : TokenAccount
  deriving DecidableEq, Repr

/-- `deposit_tokens`: move `quantity` base tokens from the seller to the
vault and activate the listing.  The result pairs the listing record written
back with the list of transfers executed; an error result means the host
rolled back, so nothing is written and no transfer survives. -/
def deposit_tokens (acc : DepositAccounts) : Except ProgramError (Listing × List Transfer) :=
  if acc.seller_is_signer = false then .error .MissingRequiredSignature
  else
  match deserialize_listing acc.listing with
  | .error e => .error e
  | .ok listing =>
  if Listing.status' listing ≠ ListingStatus.AwaitingDeposit then
    .error (.Custom .InvalidListingStatus)
  else if acc.seller_key ≠ listing.seller then .error (.Custom .IncorrectAuthority)
  else
  match assert_token_account_owner acc.seller_token acc.seller_key with
  | .error e => .error e
  | .ok _ =>
  match assert_token_account_mint acc.seller_token listing.base_mint with
  | .error e => .error e
  | .ok _ =>
  match assert_token_account_owner acc.vault_token acc.vault_authority_key with
  | .error e => .error e
  | .ok _ =>
  match assert_token_account_mint acc.vault_token listing.base_mint with
  | .error e => .error e
  | .ok _ =>
  if acc.vault_authority_key ≠ listing.vault_authority then
    .error (.Custom .IncorrectAuthority)
  else
  let amount := listing.quantity
  if acc.seller_token.amount < amount then .error .InsufficientFunds
  else
  let tr : Transfer :=
    { source := acc.seller_token_key
      destination := acc.vault_token_key
      authority := acc.seller_key
      amount := amount }
  match serialize_listing acc.listing.data_len
      (Listing.set_status listing ListingStatus.Active) with
  | .error e => .error e
  | .ok l2 => .ok (l2, [tr])

/-- Accounts supplied to `purchase_tokens`. -/
structure PurchaseAccounts where
  buyer_key : Pubkey
  buyer_is_signer : Bool
  listing : ListingAccount
  seller_quote_key : Pubkey
  seller_quote_account : TokenAccount
  buyer_quote_key : Pubkey
  buyer_quote_account : TokenAccount
  buyer_base_key : Pubkey
  buyer_base_account : TokenAccount
  vault_authority_key : Pubkey
  vault_token_key : Pubkey
  vault_token_account : TokenAccount
  deriving DecidableEq, Repr

/-- `purchase_tokens`: buyer pays the seller in quote tokens and receives
`quantity` base tokens from the vault, authorized by the vault PDA via
`invoke_signed` (`createPA` models `create_program_address`). -/
def purchase_tokens (createPA : Pubkey → Nat → Nat → Option Pubkey)
    (acc : PurchaseAccounts) (quantity : Nat) :
    Except ProgramError (Listing × List Transfer) :=
  if quantity = 0 then .error (.Custom .AmountOverflow)
  else if acc.buyer_is_signer = false then .error .MissingRequiredSignature
  else
  match deserialize_listing acc.listing with
  | .error e => .error e
  | .ok listing =>
  if Listing.status' listing ≠ ListingStatus.Active then
    .error (.Custom .InvalidListingStatus)
  else if acc.vault_authority_key ≠ listing.vault_authority then
    .error (.Custom .IncorrectAuthority)
  else
  let remaining := Listing.remaining listing
  if quantity > remaining then .error (.Custom .InsufficientQuantity)
  else if quantity < remaining ∧ Listing.allowPartial listing = false then
    .error (.Custom .PartialFillDisabled)
  else
  match checked_pow10 listing.base_decimals with
  | none => .error (.Custom .AmountOverflow)
  | some decimals_factor =>
  match u128_checked_mul quantity listing.price_per_token with
  | none => .error (.Custom .AmountOverflow)
  | some prod =>
  let quote_amount_u128 := prod / max decimals_factor 1
  if quote_amount_u128 = 0 then .error (.Custom .AmountOverflow)
  else
  match u64_try_from quote_amount_u128 with
  | none => .error (.Custom .AmountOverflow)
  | some quote_amount =>
  match assert_token_account_owner acc.seller_quote_account listing.seller with
  | .error e => .error e
  | .ok _ =>
  match assert_token_account_mint acc.seller_quote_account listing.quote_mint with
  | .error e => .error e
  | .ok _ =>
  match assert_token_account_owner acc.buyer_quote_account acc.buyer_key with
  | .error e => .error e
  | .ok _ =>
  match assert_token_account_mint acc.buyer_quote_account listing.quote_mint with
  | .error e => .error e
  | .ok _ =>
  if acc.buyer_quote_account.amount < quote_amount then .error .InsufficientFunds
  else
  match assert_token_account_owner acc.buyer_base_account acc.buyer_key with
  | .error e => .error e
  | .ok _ =>
  match assert_token_account_mint acc.buyer_base_account listing.base_mint with
  | .error e => .error e
  | .ok _ =>
  match assert_token_account_owner acc.vault_token_account acc.vault_authority_key with
  | .error e => .error e
  | .ok _ =>
  match assert_token_account_mint acc.vault_token_account listing.base_mint with
  | .error e => .error e
  | .ok _ =>
  if acc.vault_token_account.amount < quantity then .error .InsufficientFunds
  else
  let transfer_quote : Transfer :=
    { source := acc.buyer_quote_key
      destination := acc.seller_quote_key
      authority := acc.buyer_key
      amount := quote_amount }
  let transfer_base : Transfer :=
    { source := acc.vault_token_key
      destination := acc.buyer_base_key
      authority := acc.vault_authority_key
      amount := quantity }
  match invoke_signed_transfer createPA listing.seller listing.listing_id
      listing.vault_bump transfer_base with
  | .error e => .error e
  | .ok _ =>
  match u64_checked_add listing.filled quantity with
  | none => .error (.Custom .AmountOverflow)
  | some new_filled =>
  let listing2 :=
    if new_filled ≥ listing.quantity then
      Listing.set_status { listing with filled := new_filled } ListingStatus.Completed
    else { listing with filled := new_filled }
  match serialize_listing acc.listing.data_len listing2 with
  | .error e => .error e
  | .ok l2 => .ok (l2, [transfer_quote, transfer_base])

/-- Accounts supplied to `cancel_listing`. -/
structure CancelAccounts where
  seller_key : Pubkey
  seller_is_signer : Bool
  listing : ListingAccount
  vault_authority_key : Pubkey
  vault_token_key : Pubkey
  vault_token : TokenAccount
  seller_token_key : Pubkey
  seller_token : TokenAccount
  deriving DecidableEq, Repr

/-- `cancel_listing`: the seller cancels; from `AwaitingDeposit` nothing
moves, from `Active` the remaining base tokens return to the seller through
an `invoke_signed` vault transfer; any other status is rejected. -/
def cancel_listing (createPA : Pubkey → Nat → Nat → Option Pubkey)
    (acc : CancelAccounts) : Except ProgramError (Listing × List Transfer) :=
  if acc.seller_is_signer = false then .error .MissingRequiredSignature
  else
  match deserialize_listing acc.listing with
  | .error e => .error e
  | .ok listing =>
  if listing.seller ≠ acc.seller_key then .error (.Custom .IncorrectAuthority)
  else
  match Listing.status' listing with
  | ListingStatus.AwaitingDeposit =>
    match serialize_listing acc.listing.data_len
        (Listing.set_status listing ListingStatus.Cancelled) with
    | .error e => .error e
    | .ok l2 => .ok (l2, [])
  | ListingStatus.Active =>
    let remaining := Listing.remaining listing
    if remaining > 0 then
      match assert_token_account_owner acc.vault_token acc.vault_authority_key with
      | .error e => .error e
      | .ok _ =>
      match assert_token_account_mint acc.vault_token listing.base_mint with
      | .error e => .error e
      | .ok _ =>
      match assert_token_account_owner acc.seller_token acc.seller_key with
      | .error e => .error e
      | .ok _ =>
      match assert_token_account_mint acc.seller_token listing.base_mint with
      | .error e => .error e
      | .ok _ =>
      let transfer_ix : Transfer :=
        { source := acc.vault_token_key
          destination := acc.seller_token_key
          authority := acc.vault_authority_key
          amount := remaining }
      match invoke_signed_transfer createPA listing.seller listing.listing_id
          listing.vault_bump transfer_ix with
      | .error e => .error e
      | .ok _ =>
      match serialize_listing acc.listing.data_len
          (Listing.set_status listing ListingStatus.Cancelled) with
      | .error e => .error e
      | .ok l2 => .ok (l2, [transfer_ix])
    else
      match serialize_listing acc.listing.data_len
          (Listing.set_status listing ListingStatus.Cancelled) with
      | .error e => .error e
      | .ok l2 => .ok (l2, [])
  | _ => .error (.Custom .InvalidListingStatus)

/-! ### Concrete host-primitive instantiations and fixtures used by witnesses -/

/-- A concrete `find_program_address` model: address determined by seller and
listing id, canonical bump 254. -/
def findPA0 : Pubkey → Nat → Pubkey × Nat := fun s i => (10000 + 7 * s + 13 * i, 254)

/-- The matching `create_program_address` model: succeeds only at bump 254 and
returns the same address as `findPA0`. -/
def createPA0 : Pubkey → Nat → Nat → Option Pubkey :=
  fun s i b => if b = 254 then some (10000 + 7 * s + 13 * i) else none

/-- A concrete associated-token-address model. -/
def ata0 : Pubkey → Pubkey → Pubkey := fun a m => 20000 + 31 * a + m

/-- A concrete digest model: never the all-zero hash. -/
def keccak0 : String → List Nat := fun s => 1 :: List.replicate 31 (s.length % 256)

/-- Accounts for a concrete successful initialization: seller 5, base mint 2,
quote mint 3, listing id 1, vault PDA `findPA0 5 1 = 10048`. -/
def initAcc0 : InitAccounts :=
  { seller_key := 5
    seller_is_signer := true
    listing_owner_is_program := true
    listing_data := List.replicate Listing.LEN 0
    vault_authority_key := 10048
    vault_token_key := ata0 10048 2
    base_mint_key := 2
    quote_mint_key := 3
    system_program_ok := true
    base_mint_decimals := 0 }

/-- The listing record written by
`initialize_listing findPA0 ata0 keccak0 initAcc0 1 100 50 true 0 none`. -/
def listing0 : Listing :=
  { seller := 5
    base_mint := 2
    quote_mint := 3
    vault_authority := 10048
    price_per_token := 100
    quantity := 50
    filled := 0
    listing_id := 1
    flags := 1
    vault_bump := 254
    status := 0
    base_decimals := 0
    fee_payment_method := 0
    fee_amount_paid := 50
    x402_payload_hash := List.replicate 32 0 }

/-! ### Claim theorems -/

/-- All account-level checks of `initialize_listing` that precede the fee
computation pass: signer, program ownership, zeroed record, system program,
vault PDA match, vault ATA match. -/
def init_accounts_ok (findPA : Pubkey → Nat → Pubkey × Nat)
    (ata : Pubkey → Pubkey → Pubkey) (acc : InitAccounts) (listing_id : Nat) : Prop :=
  acc.seller_is_signer = true ∧
  acc.listing_owner_is_program = true ∧
  acc.listing_data.any (fun b => b ≠ 0) = false ∧
  acc.system_program_ok = true ∧
  acc.vault_authority_key = (findPA acc.seller_key listing_id).1 ∧
  acc.vault_token_key = ata acc.vault_authority_key acc.base_mint_key

/-- Claim C1: every successful initialization stores
`fee_amount_paid = floor(price_per_token * quantity / 100)` computed exactly
(the 128-bit intermediate product of two `u64` values never overflows), and
when that quotient does not fit in 64 bits the initialization fails with
`AmountOverflow`. -/
theorem initialize_fee_exact
    (findPA : Pubkey → Nat → Pubkey × Nat) (ata : Pubkey → Pubkey → Pubkey)
    (keccakHash : String → List Nat) (acc : InitAccounts)
    (listing_id price_per_token quantity : Nat) (allowPartial : Bool)
    (fee_payment_method : Nat) (x402_payload : Option String)
    (hp : 0 < price_per_token) (hq : 0 < quantity)
    (hp64 : price_per_token < u64_bound) (hq64 : quantity < u64_bound) :
    (∀ l, initialize_listing findPA ata keccakHash acc listing_id price_per_token
        quantity allowPartial fee_payment_method x402_payload = .ok l →
      l.fee_amount_paid = price_per_token * quantity / 100) ∧
    (init_accounts_ok findPA ata acc listing_id →
      u64_bound ≤ price_per_token * quantity / 100 →
      initialize_listing findPA ata keccakHash acc listing_id price_per_token
        quantity allowPartial fee_payment_method x402_payload =
        .error (.Custom .AmountOverflow)) := by
  have hmul : price_per_token * quantity < u128_bound := by
    calc price_per_token * quantity < u64_bound * u64_bound :=
          Nat.mul_lt_mul_of_lt_of_lt hp64 hq64
      _ = u128_bound := by norm_num [u64_bound, u128_bound]
  constructor
  · intro l h
    unfold initialize_listing at h
    simp only [u128_checked_mul, u64_try_from, serialize_listing,
      verify_x402_payment] at h
    iterate 30 (all_goals (try (first | exact Except.noConfusion h | split at h)))
    all_goals injection h with h2
    all_goals subst h2
    all_goals rename_i trade heq2 q2 fee heq1 hres hsh heq0 hlen hap
    all_goals injection heq2 with heq2
    all_goals split at heq1
    all_goals
      first
        | exact Option.noConfusion heq1
        | (injection heq1 with heq1; subst heq2; subst heq1; rfl)
  · intro hok hbig
    obtain ⟨h1, h2, h3, h4, h5, h6⟩ := hok
    unfold initialize_listing
    simp only [h1, h2, h3, h4, h5, h6, u128_checked_mul, u64_try_from,
      if_pos hmul, Nat.pos_iff_ne_zero.mp hp, Nat.pos_iff_ne_zero.mp hq]
    simp [Nat.pos_iff_ne_zero.mp hp, Nat.pos_iff_ne_zero.mp hq, hmul, Nat.not_lt.mpr hbig]

set_option maxRecDepth 4000 in
/-- Witness for C1: the concrete successful initialization at price 100,
quantity 50 stores fee 50, and price `2 ^ 63` with quantity 400 overflows. -/
theorem initialize_fee_exact_witness :
    Listing.fee_amount_paid listing0 = 100 * 50 / 100 ∧
    initialize_listing findPA0 ata0 keccak0 initAcc0 1 (2 ^ 63) 400 true 0 none =
      .error (.Custom .AmountOverflow) := by
  constructor
  · exact (initialize_fee_exact findPA0 ata0 keccak0 initAcc0 1 100 50 true 0 none
      (by decide) (by decide) (by decide) (by decide)).1 listing0 (by decide)
  · exact (initialize_fee_exact findPA0 ata0 keccak0 initAcc0 1 (2 ^ 63) 400 true 0 none
      (by decide) (by decide) (by decide) (by decide)).2
      (by unfold init_accounts_ok; decide) (by decide)

/-- Inversion for a successful `deposit_tokens`: every guard held, the
written listing is the stored one with status `Active`, and exactly one
transfer of `quantity` base tokens moves seller → vault. -/
theorem deposit_tokens_ok (acc : DepositAccounts) (l' : Listing) (trs : List Transfer)
    (h : deposit_tokens acc = .ok (l', trs)) :
    acc.seller_is_signer = true ∧
    acc.listing.owner_is_program = true ∧
    Listing.LEN ≤ acc.listing.data_len ∧
    acc.listing.parse_ok = true ∧
    Listing.status' acc.listing.stored = ListingStatus.AwaitingDeposit ∧
    acc.seller_key = acc.listing.stored.seller ∧
    acc.seller_token.owner = acc.seller_key ∧
    acc.seller_token.mint = acc.listing.stored.base_mint ∧
    acc.vault_token.owner = acc.vault_authority_key ∧
    acc.vault_token.mint = acc.listing.stored.base_mint ∧
    acc.vault_authority_key = acc.listing.stored.vault_authority ∧
    acc.listing.stored.quantity ≤ acc.seller_token.amount ∧
    l' = Listing.set_status acc.listing.stored ListingStatus.Active ∧
    trs = [{ source := acc.seller_token_key, destination := acc.vault_token_key,
             authority := acc.seller_key, amount := acc.listing.stored.quantity }] := by
  by_cases d1 : acc.seller_is_signer = false
  · simp [deposit_tokens, d1] at h
  by_cases d2 : acc.listing.owner_is_program = false
  · simp [deposit_tokens, deserialize_listing, d1, d2] at h
  by_cases d3 : acc.listing.data_len < Listing.LEN
  · simp [deposit_tokens, deserialize_listing, d1, d2, d3] at h
  by_cases d4 : acc.listing.parse_ok = false
  · simp [deposit_tokens, deserialize_listing, d1, d2, d3, d4] at h
  by_cases d5 : Listing.status' acc.listing.stored ≠ ListingStatus.AwaitingDeposit
  · simp [deposit_tokens, deserialize_listing, d1, d2, d3, d4, d5] at h
  by_cases d6 : acc.seller_key ≠ acc.listing.stored.seller
  · simp [deposit_tokens, deserialize_listing, d1, d2, d3, d4, d5, d6] at h
  by_cases d7 : acc.seller_token.owner ≠ acc.seller_key
  · simp [deposit_tokens, deserialize_listing, assert_token_account_owner,
      d1, d2, d3, d4, d5, d6, d7] at h
  by_cases d8 : acc.seller_token.mint ≠ acc.listing.stored.base_mint
  · simp [deposit_tokens, deserialize_listing, assert_token_account_owner,
      assert_token_account_mint, d1, d2, d3, d4, d5, d6, d7, d8] at h
  by_cases d9 : acc.vault_token.owner ≠ acc.vault_authority_key
  · simp [deposit_tokens, deserialize_listing, assert_token_account_owner,
      assert_token_account_mint, d1, d2, d3, d4, d5, d6, d7, d8, d9] at h
  by_cases d10 : acc.vault_token.mint ≠ acc.listing.stored.base_mint
  · simp [deposit_tokens, deserialize_listing, assert_token_account_owner,
      assert_token_account_mint, d1, d2, d3, d4, d5, d6, d7, d8, d9, d10] at h
  by_cases d11 : acc.vault_authority_key ≠ acc.listing.stored.vault_authority
  · simp [deposit_tokens, deserialize_listing, assert_token_account_owner,
      assert_token_account_mint, d1, d2, d3, d4, d5, d6, d7, d8, d9, d10, d11] at h
  by_cases d12 : acc.seller_token.amount < acc.listing.stored.quantity
  · simp [deposit_tokens, deserialize_listing, assert_token_account_owner,
      assert_token_account_mint, d1, d2, d3, d4, d5, d6, d7, d8, d9, d10, d11, d12] at h
  simp [deposit_tokens, deserialize_listing, serialize_listing,
    assert_token_account_owner, assert_token_account_mint,
    d1, d2, d3, d4, d5, d6, d7, d8, d9, d10, d11, d12] at h
  obtain ⟨hl, htr⟩ := h
  exact ⟨by simpa using d1, by simpa using d2, by simpa using d3, by simpa using d4,
    by simpa using d5, by simpa using d6, by simpa using d7, by simpa using d8,
    by simpa using d9, by simpa using d10, by simpa using d11, by simpa using d12,
    by simp [hl], by simp [htr]⟩

/-- Inversion for a successful `purchase_tokens`: every guard held, the quote
amount is the wide-intermediate floor division of the code, `filled` grew by
the purchased quantity, completion is decided by `filled ≥ quantity`, and the
two transfers (buyer→seller quote, vault→buyer base) were issued with the
vault transfer authorized by the re-derived PDA. -/
theorem purchase_tokens_ok (createPA : Pubkey → Nat → Nat → Option Pubkey)
    (acc : PurchaseAccounts) (q : Nat) (l' : Listing) (trs : List Transfer)
    (h : purchase_tokens createPA acc q = .ok (l', trs)) :
    acc.buyer_is_signer = true ∧
    q ≠ 0 ∧
    acc.listing.owner_is_program = true ∧
    Listing.LEN ≤ acc.listing.data_len ∧
    acc.listing.parse_ok = true ∧
    Listing.status' acc.listing.stored = ListingStatus.Active ∧
    acc.vault_authority_key = acc.listing.stored.vault_authority ∧
    q ≤ Listing.remaining acc.listing.stored ∧
    (q < Listing.remaining acc.listing.stored →
      Listing.allowPartial acc.listing.stored = true) ∧
    10 ^ acc.listing.stored.base_decimals < u128_bound ∧
    q * acc.listing.stored.price_per_token < u128_bound ∧
    q * acc.listing.stored.price_per_token /
        max (10 ^ acc.listing.stored.base_decimals) 1 ≠ 0 ∧
    q * acc.listing.stored.price_per_token /
        max (10 ^ acc.listing.stored.base_decimals) 1 < u64_bound ∧
    acc.seller_quote_account.owner = acc.listing.stored.seller ∧
    acc.seller_quote_account.mint = acc.listing.stored.quote_mint ∧
    acc.buyer_quote_account.owner = acc.buyer_key ∧
    acc.buyer_quote_account.mint = acc.listing.stored.quote_mint ∧
    q * acc.listing.stored.price_per_token /
        max (10 ^ acc.listing.stored.base_decimals) 1 ≤ acc.buyer_quote_account.amount ∧
    acc.buyer_base_account.owner = acc.buyer_key ∧
    acc.buyer_base_account.mint = acc.listing.stored.base_mint ∧
    acc.vault_token_account.owner = acc.vault_authority_key ∧
    acc.vault_token_account.mint = acc.listing.stored.base_mint ∧
    q ≤ acc.vault_token_account.amount ∧
    createPA acc.listing.stored.seller acc.listing.stored.listing_id
        acc.listing.stored.vault_bump = some acc.vault_authority_key ∧
    acc.listing.stored.filled + q < u64_bound ∧
    l' = (if acc.listing.stored.quantity ≤ acc.listing.stored.filled + q then
        Listing.set_status { acc.listing.stored with
          filled := acc.listing.stored.filled + q } ListingStatus.Completed
      else { acc.listing.stored with filled := acc.listing.stored.filled + q }) ∧
    trs = [{ source := acc.buyer_quote_key, destination := acc.seller_quote_key,
             authority := acc.buyer_key,
             amount := q * acc.listing.stored.price_per_token /
               max (10 ^ acc.listing.stored.base_decimals) 1 },
           { source := acc.vault_token_key, destination := acc.buyer_base_key,
             authority := acc.vault_authority_key, amount := q }] := by
  by_cases p0 : q = 0
  · simp [purchase_tokens, p0] at h
  by_cases p1 : acc.buyer_is_signer = false
  · simp [purchase_tokens, p0, p1] at h
  by_cases p2 : acc.listing.owner_is_program = false
  · simp [purchase_tokens, deserialize_listing, p0, p1, p2] at h
  by_cases p3 : acc.listing.data_len < Listing.LEN
  · simp [purchase_tokens, deserialize_listing, p0, p1, p2, p3] at h
  by_cases p4 : acc.listing.parse_ok = false
  · simp [purchase_tokens, deserialize_listing, p0, p1, p2, p3, p4] at h
  by_cases p5 : Listing.status' acc.listing.stored ≠ ListingStatus.Active
  · simp [purchase_tokens, deserialize_listing, p0, p1, p2, p3, p4, p5] at h
  by_cases p6 : acc.vault_authority_key ≠ acc.listing.stored.vault_authority
  · simp [purchase_tokens, deserialize_listing, p0, p1, p2, p3, p4, p5, p6] at h
  by_cases p7 : q > Listing.remaining acc.listing.stored
  · simp [purchase_tokens, deserialize_listing, p0, p1, p2, p3, p4, p5, p6, p7] at h
  by_cases p8 : q < Listing.remaining acc.listing.stored ∧
      Listing.allowPartial acc.listing.stored = false
  · simp [purchase_tokens, deserialize_listing, p0, p1, p2, p3, p4, p5, p6, p7, p8] at h
  by_cases p9 : 10 ^ acc.listing.stored.base_decimals < u128_bound
  case neg =>
    simp [purchase_tokens, deserialize_listing, checked_pow10,
      p0, p1, p2, p3, p4, p5, p6, p7, p8, p9] at h
  by_cases p10 : q * acc.listing.stored.price_per_token < u128_bound
  case neg =>
    simp [purchase_tokens, deserialize_listing, checked_pow10, u128_checked_mul,
      p0, p1, p2, p3, p4, p5, p6, p7, p8, p9, p10] at h
  by_cases p11 : q * acc.listing.stored.price_per_token /
      max (10 ^ acc.listing.stored.base_decimals) 1 = 0
  · simp [purchase_tokens, deserialize_listing, checked_pow10, u128_checked_mul,
      p0, p1, p2, p3, p4, p5, p6, p7, p8, p9, p10, p11] at h
  by_cases p12 : q * acc.listing.stored.price_per_token /
      max (10 ^ acc.listing.stored.base_decimals) 1 < u64_bound
  case neg =>
    simp [purchase_tokens, deserialize_listing, checked_pow10, u128_checked_mul,
      u64_try_from, p0, p1, p2, p3, p4, p5, p6, p7, p8, p9, p10, p11, p12] at h
  by_cases p13 : acc.seller_quote_account.owner ≠ acc.listing.stored.seller
  · simp [purchase_tokens, deserialize_listing, checked_pow10, u128_checked_mul,
      u64_try_from, assert_token_account_owner,
      p0, p1, p2, p3, p4, p5, p6, p7, p8, p9, p10, p11, p12, p13] at h
  by_cases p14 : acc.seller_quote_account.mint ≠ acc.listing.stored.quote_mint
  · simp [purchase_tokens, deserialize_listing, checked_pow10, u128_checked_mul,
      u64_try_from, assert_token_account_owner, assert_token_account_mint,
      p0, p1, p2, p3, p4, p5, p6, p7, p8, p9, p10, p11, p12, p13, p14] at h
  by_cases p15 : acc.buyer_quote_account.owner ≠ acc.buyer_key
  · simp [purchase_tokens, deserialize_listing, checked_pow10, u128_checked_mul,
      u64_try_from, assert_token_account_owner, assert_token_account_mint,
      p0, p1, p2, p3, p4, p5, p6, p7, p8, p9, p10, p11, p12, p13, p14, p15] at h
  by_cases p16 : acc.buyer_quote_account.mint ≠ acc.listing.stored.quote_mint
  · simp [purchase_tokens, deserialize_listing, checked_pow10, u128_checked_mul,
      u64_try_from, assert_token_account_owner, assert_token_account_mint,
      p0, p1, p2, p3, p4, p5, p6, p7, p8, p9, p10, p11, p12, p13, p14, p15, p16] at h
  by_cases p17 : acc.buyer_quote_account.amount < q * acc.listing.stored.price_per_token /
      max (10 ^ acc.listing.stored.base_decimals) 1
  · simp [purchase_tokens, deserialize_listing, checked_pow10, u128_checked_mul,
      u64_try_from, assert_token_account_owner, assert_token_account_mint,
      p0, p1, p2, p3, p4, p5, p6, p7, p8, p9, p10, p11, p12, p13, p14, p15, p16,
      p17] at h
  by_cases p18 : acc.buyer_base_account.owner ≠ acc.buyer_key
  · simp [purchase_tokens, deserialize_listing, checked_pow10, u128_checked_mul,
      u64_try_from, assert_token_account_owner, assert_token_account_mint,
      p0, p1, p2, p3, p4, p5, p6, p7, p8, p9, p10, p11, p12, p13, p14, p15, p16,
      p17, p18] at h
  by_cases p19 : acc.buyer_base_account.mint ≠ acc.listing.stored.base_mint
  · simp [purchase_tokens, deserialize_listing, checked_pow10, u128_checked_mul,
      u64_try_from, assert_token_account_owner, assert_token_account_mint,
      p0, p1, p2, p3, p4, p5, p6, p7, p8, p9, p10, p11, p12, p13, p14, p15, p16,
      p17, p18, p19] at h
  by_cases p20 : acc.vault_token_account.owner ≠ acc.vault_authority_key
  · simp [purchase_tokens, deserialize_listing, checked_pow10, u128_checked_mul,
      u64_try_from, assert_token_account_owner, assert_token_account_mint,
      p0, p1, p2, p3, p4, p5, p6, p7, p8, p9, p10, p11, p12, p13, p14, p15, p16,
      p17, p18, p19, p20] at h
  by_cases p21 : acc.vault_token_account.mint ≠ acc.listing.stored.base_mint
  · simp [purchase_tokens, deserialize_listing, checked_pow10, u128_checked_mul,
      u64_try_from, assert_token_account_owner, assert_token_account_mint,
      p0, p1, p2, p3, p4, p5, p6, p7, p8, p9, p10, p11, p12, p13, p14, p15, p16,
      p17, p18, p19, p20, p21] at h
  by_cases p22 : acc.vault_token_account.amount < q
  · simp [purchase_tokens, deserialize_listing, checked_pow10, u128_checked_mul,
      u64_try_from, assert_token_account_owner, assert_token_account_mint,
      p0, p1, p2, p3, p4, p5, p6, p7, p8, p9, p10, p11, p12, p13, p14, p15, p16,
      p17, p18, p19, p20, p21, p22] at h
  cases hcp : createPA acc.listing.stored.seller acc.listing.stored.listing_id
      acc.listing.stored.vault_bump with
  | none =>
    simp [purchase_tokens, deserialize_listing, checked_pow10, u128_checked_mul,
      u64_try_from, assert_token_account_owner, assert_token_account_mint,
      invoke_signed_transfer, hcp,
      p0, p1, p2, p3, p4, p5, p6, p7, p8, p9, p10, p11, p12, p13, p14, p15, p16,
      p17, p18, p19, p20, p21, p22] at h
  | some pk =>
    by_cases hpk : pk = acc.vault_authority_key
    case neg =>
      simp [purchase_tokens, deserialize_listing, checked_pow10, u128_checked_mul,
        u64_try_from, assert_token_account_owner, assert_token_account_mint,
        invoke_signed_transfer, hcp, hpk,
        p0, p1, p2, p3, p4, p5, p6, p7, p8, p9, p10, p11, p12, p13, p14, p15, p16,
        p17, p18, p19, p20, p21, p22] at h
    subst hpk
    by_cases p23 : acc.listing.stored.filled + q < u64_bound
    case neg =>
      simp [purchase_tokens, deserialize_listing, checked_pow10, u128_checked_mul,
        u64_try_from, assert_token_account_owner, assert_token_account_mint,
        invoke_signed_transfer, u64_checked_add, hcp,
        p0, p1, p2, p3, p4, p5, p6, p7, p8, p9, p10, p11, p12, p13, p14, p15, p16,
        p17, p18, p19, p20, p21, p22, p23] at h
    simp [purchase_tokens, deserialize_listing, checked_pow10, u128_checked_mul,
      u64_try_from, assert_token_account_owner, assert_token_account_mint,
      invoke_signed_transfer, u64_checked_add, serialize_listing, hcp,
      p0, p1, p2, p3, p4, p5, p6, p7, p8, p9, p10, p11, p12, p13, p14, p15, p16,
      p17, p18, p19, p20, p21, p22, p23] at h
    obtain ⟨hl, htr⟩ := h
    refine ⟨by simpa using p1, p0, by simpa using p2, by simpa using p3,
      by simpa using p4, by simpa using p5, by simpa using p6, by simpa using p7,
      ?_, p9, p10, p11, p12, by simpa using p13, by simpa using p14,
      by simpa using p15, by simpa using p16, by simpa using p17,
      by simpa using p18, by simpa using p19, by simpa using p20,
      by simpa using p21, by simpa using p22, rfl, p23, ?_, ?_⟩
    · intro hlt
      cases hb : Listing.allowPartial acc.listing.stored
      · exact absurd ⟨hlt, hb⟩ p8
      · rfl
    · simp [← hl]
    · simp [← htr]

/-- Inversion for a successful `cancel_listing`: the caller is the seller,
the listing ends `Cancelled`, and the transfers are empty from
`AwaitingDeposit` or from `Active` with nothing remaining, and exactly the
remaining amount vault → seller from `Active` otherwise, authorized by the
re-derived PDA. -/
theorem cancel_listing_ok (createPA : Pubkey → Nat → Nat → Option Pubkey)
    (acc : CancelAccounts) (l' : Listing) (trs : List Transfer)
    (h : cancel_listing createPA acc = .ok (l', trs)) :
    acc.seller_is_signer = true ∧
    acc.listing.owner_is_program = true ∧
    Listing.LEN ≤ acc.listing.data_len ∧
    acc.listing.parse_ok = true ∧
    acc.listing.stored.seller = acc.seller_key ∧
    l' = Listing.set_status acc.listing.stored ListingStatus.Cancelled ∧
    ((Listing.status' acc.listing.stored = ListingStatus.AwaitingDeposit ∧ trs = []) ∨
     (Listing.status' acc.listing.stored = ListingStatus.Active ∧
       Listing.remaining acc.listing.stored = 0 ∧ trs = []) ∨
     (Listing.status' acc.listing.stored = ListingStatus.Active ∧
       0 < Listing.remaining acc.listing.stored ∧
       acc.vault_token.owner = acc.vault_authority_key ∧
       acc.vault_token.mint = acc.listing.stored.base_mint ∧
       acc.seller_token.owner = acc.seller_key ∧
       acc.seller_token.mint = acc.listing.stored.base_mint ∧
       createPA acc.listing.stored.seller acc.listing.stored.listing_id
         acc.listing.stored.vault_bump = some acc.vault_authority_key ∧
       trs = [{ source := acc.vault_token_key, destination := acc.seller_token_key,
                authority := acc.vault_authority_key,
                amount := Listing.remaining acc.listing.stored }])) := by
  by_cases c1 : acc.seller_is_signer = false
  · simp [cancel_listing, c1] at h
  by_cases c2 : acc.listing.owner_is_program = false
  · simp [cancel_listing, deserialize_listing, c1, c2] at h
  by_cases c3 : acc.listing.data_len < Listing.LEN
  · simp [cancel_listing, deserialize_listing, c1, c2, c3] at h
  by_cases c4 : acc.listing.parse_ok = false
  · simp [cancel_listing, deserialize_listing, c1, c2, c3, c4] at h
  by_cases c5 : acc.listing.stored.seller ≠ acc.seller_key
  · simp [cancel_listing, deserialize_listing, c1, c2, c3, c4, c5] at h
  cases hst : Listing.status' acc.listing.stored with
  | AwaitingDeposit =>
    simp [cancel_listing, deserialize_listing, serialize_listing, c1, c2, c3, c4,
      c5, hst] at h
    obtain ⟨hl, htr⟩ := h
    exact ⟨by simpa using c1, by simpa using c2, by simpa using c3,
      by simpa using c4, by simpa using c5, by simp [← hl], Or.inl ⟨rfl, htr⟩⟩
  | Completed =>
    simp [cancel_listing, deserialize_listing, c1, c2, c3, c4, c5, hst] at h
  | Cancelled =>
    simp [cancel_listing, deserialize_listing, c1, c2, c3, c4, c5, hst] at h
  | Active =>
    by_cases c6 : 0 < Listing.remaining acc.listing.stored
    case neg =>
      simp [cancel_listing, deserialize_listing, serialize_listing, c1, c2, c3,
        c4, c5, c6, hst] at h
      obtain ⟨hl, htr⟩ := h
      exact ⟨by simpa using c1, by simpa using c2, by simpa using c3,
        by simpa using c4, by simpa using c5, by simp [← hl],
        Or.inr (Or.inl ⟨rfl, by omega, htr⟩)⟩
    by_cases c7 : acc.vault_token.owner ≠ acc.vault_authority_key
    · simp [cancel_listing, deserialize_listing, assert_token_account_owner,
        c1, c2, c3, c4, c5, c6, c7, hst] at h
    by_cases c8 : acc.vault_token.mint ≠ acc.listing.stored.base_mint
    · simp [cancel_listing, deserialize_listing, assert_token_account_owner,
        assert_token_account_mint, c1, c2, c3, c4, c5, c6, c7, c8, hst] at h
    by_cases c9 : acc.seller_token.owner ≠ acc.seller_key
    · simp [cancel_listing, deserialize_listing, assert_token_account_owner,
        assert_token_account_mint, c1, c2, c3, c4, c5, c6, c7, c8, c9, hst] at h
    by_cases c10 : acc.seller_token.mint ≠ acc.listing.stored.base_mint
    · simp [cancel_listing, deserialize_listing, assert_token_account_owner,
        assert_token_account_mint, c1, c2, c3, c4, c5, c6, c7, c8, c9, c10,
        hst] at h
    cases hcp : createPA acc.listing.stored.seller acc.listing.stored.listing_id
        acc.listing.stored.vault_bump with
    | none =>
      simp [cancel_listing, deserialize_listing, assert_token_account_owner,
        assert_token_account_mint, invoke_signed_transfer, hcp,
        c1, c2, c3, c4, c5, c6, c7, c8, c9, c10, hst] at h
    | some pk =>
      by_cases hpk : pk = acc.vault_authority_key
      case neg =>
        simp [cancel_listing, deserialize_listing, assert_token_account_owner,
          assert_token_account_mint, invoke_signed_transfer, hcp, hpk,
          c1, c2, c3, c4, c5, c6, c7, c8, c9, c10, hst] at h
      subst hpk
      simp [cancel_listing, deserialize_listing, assert_token_account_owner,
        assert_token_account_mint, invoke_signed_transfer, serialize_listing, hcp,
        c1, c2, c3, c4, c5, c6, c7, c8, c9, c10, hst] at h
      obtain ⟨hl, htr⟩ := h
      exact ⟨by simpa using c1, by simpa using c2, by simpa using c3,
        by simpa using c4, by simpa using c5, by simp [← hl],
        Or.inr (Or.inr ⟨rfl, c6, by simpa using c7, by simpa using c8,
          by simpa using c9, by simpa using c10, rfl, htr.symm⟩)⟩

/-- Listing account wrapping `listing0`, well-formed for the handlers. -/
def listingAcct0 : ListingAccount :=
  { owner_is_program := true, data_len := Listing.LEN, parse_ok := true, stored := listing0 }

/-- `listing0` after its deposit: status `Active`. -/
def listing1 : Listing := { listing0 with status := 1 }

/-- Listing account wrapping `listing1`. -/
def listingAcct1 : ListingAccount := { listingAcct0 with stored := listing1 }

/-- Accounts for a concrete successful deposit on `listing0`. -/
def depositAcc0 : DepositAccounts :=
  { seller_key := 5, seller_is_signer := true, listing := listingAcct0
    seller_token_key := 201, seller_token := { mint := 2, owner := 5, amount := 1000 }
    vault_authority_key := 10048, vault_token_key := 202
    vault_token := { mint := 2, owner := 10048, amount := 0 } }

/-- Accounts for a concrete successful purchase of 20 units on `listing1`. -/
def purchaseAcc0 : PurchaseAccounts :=
  { buyer_key := 6, buyer_is_signer := true, listing := listingAcct1
    seller_quote_key := 301, seller_quote_account := { mint := 3, owner := 5, amount := 0 }
    buyer_quote_key := 302, buyer_quote_account := { mint := 3, owner := 6, amount := 5000 }
    buyer_base_key := 303, buyer_base_account := { mint := 2, owner := 6, amount := 0 }
    vault_authority_key := 10048, vault_token_key := 202
    vault_token_account := { mint := 2, owner := 10048, amount := 50 } }

/-- Accounts for a concrete successful cancel on the active `listing1`. -/
def cancelAcc0 : CancelAccounts :=
  { seller_key := 5, seller_is_signer := true, listing := listingAcct1
    vault_authority_key := 10048, vault_token_key := 202
    vault_token := { mint := 2, owner := 10048, amount := 50 }
    seller_token_key := 201, seller_token := { mint := 2, owner := 5, amount := 1000 } }

/-- Claim C2: successful operations move the status only along the permitted
edges — deposit takes `AwaitingDeposit` to `Active`, purchase acts only on
`Active` and leaves it `Active` or `Completed`, cancel acts only on
`AwaitingDeposit` or `Active` and leaves `Cancelled`.  In particular no
operation succeeds on a `Completed` or `Cancelled` listing, and an error
leaves the persisted record unchanged. -/
theorem status_machine
    (createPA : Pubkey → Nat → Nat → Option Pubkey)
    (accD : DepositAccounts) (accP : PurchaseAccounts) (accC : CancelAccounts)
    (q : Nat) (lD lP lC : Listing) (trD trP trC : List Transfer)
    (hD : deposit_tokens accD = .ok (lD, trD))
    (hP : purchase_tokens createPA accP q = .ok (lP, trP))
    (hC : cancel_listing createPA accC = .ok (lC, trC)) :
    (Listing.status' accD.listing.stored = ListingStatus.AwaitingDeposit ∧
      Listing.status' lD = ListingStatus.Active) ∧
    (Listing.status' accP.listing.stored = ListingStatus.Active ∧
      (Listing.status' lP = ListingStatus.Active ∨
       Listing.status' lP = ListingStatus.Completed)) ∧
    ((Listing.status' accC.listing.stored = ListingStatus.AwaitingDeposit ∨
      Listing.status' accC.listing.stored = ListingStatus.Active) ∧
      Listing.status' lC = ListingStatus.Cancelled) := by
  obtain ⟨-, -, -, -, hs, -, -, -, -, -, -, -, hl, -⟩ := deposit_tokens_ok accD lD trD hD
  obtain ⟨-, -, -, -, -, hsP, -, -, -, -, -, -, -, -, -, -, -, -, -, -, -, -, -, -,
      -, hlP, -⟩ := purchase_tokens_ok createPA accP q lP trP hP
  obtain ⟨-, -, -, -, -, hlC, hcases⟩ := cancel_listing_ok createPA accC lC trC hC
  refine ⟨⟨hs, ?_⟩, ⟨hsP, ?_⟩, ⟨?_, ?_⟩⟩
  · rw [hl]; rfl
  · rw [hlP]
    split
    · exact Or.inr rfl
    · exact Or.inl hsP
  · rcases hcases with ⟨h, -⟩ | ⟨h, -⟩ | ⟨h, -⟩
    · exact Or.inl h
    · exact Or.inr h
    · exact Or.inr h
  · rw [hlC]; rfl

set_option maxRecDepth 8000 in
/-- Witness for C2: concrete successful deposit, purchase and cancel runs with
the expected before/after statuses. -/
theorem status_machine_witness :
    (Listing.status' depositAcc0.listing.stored = ListingStatus.AwaitingDeposit ∧
      Listing.status' listing1 = ListingStatus.Active) ∧
    (Listing.status' purchaseAcc0.listing.stored = ListingStatus.Active ∧
      (Listing.status' { listing1 with filled := 20 } = ListingStatus.Active ∨
       Listing.status' { listing1 with filled := 20 } = ListingStatus.Completed)) ∧
    ((Listing.status' cancelAcc0.listing.stored = ListingStatus.AwaitingDeposit ∨
      Listing.status' cancelAcc0.listing.stored = ListingStatus.Active) ∧
      Listing.status' (Listing.set_status listing1 ListingStatus.Cancelled) =
        ListingStatus.Cancelled) :=
  status_machine createPA0 depositAcc0 purchaseAcc0 cancelAcc0 20
    listing1 { listing1 with filled := 20 }
    (Listing.set_status listing1 ListingStatus.Cancelled)
    [{ source := 201, destination := 202, authority := 5, amount := 50 }]
    [{ source := 302, destination := 301, authority := 6, amount := 2000 },
     { source := 202, destination := 303, authority := 10048, amount := 20 }]
    [{ source := 202, destination := 201, authority := 10048, amount := 50 }]
    (by decide) (by decide) (by decide)

/-- Inversion for a successful `initialize_listing`: every guard held and the
written record has exactly the initial field values, with the payload hash
all-zero on the native path and the digest of a non-empty payload on the
x402 path. -/
theorem initialize_listing_ok (findPA : Pubkey → Nat → Pubkey × Nat)
    (ata : Pubkey → Pubkey → Pubkey) (keccakHash : String → List Nat)
    (acc : InitAccounts) (listing_id price_per_token quantity : Nat)
    (allowPartial : Bool) (fee_payment_method : Nat) (x402_payload : Option String)
    (l : Listing)
    (h : initialize_listing findPA ata keccakHash acc listing_id price_per_token
      quantity allowPartial fee_payment_method x402_payload = .ok l) :
    quantity ≠ 0 ∧ price_per_token ≠ 0 ∧
    acc.seller_is_signer = true ∧
    acc.listing_owner_is_program = true ∧
    acc.listing_data.any (fun b => b ≠ 0) = false ∧
    acc.system_program_ok = true ∧
    acc.vault_authority_key = (findPA acc.seller_key listing_id).1 ∧
    acc.vault_token_key = ata acc.vault_authority_key acc.base_mint_key ∧
    price_per_token * quantity < u128_bound ∧
    price_per_token * quantity / 100 < u64_bound ∧
    Listing.LEN ≤ acc.listing_data.length ∧
    l.seller = acc.seller_key ∧
    l.base_mint = acc.base_mint_key ∧
    l.quote_mint = acc.quote_mint_key ∧
    l.vault_authority = acc.vault_authority_key ∧
    l.price_per_token = price_per_token ∧
    l.quantity = quantity ∧
    l.filled = 0 ∧
    l.listing_id = listing_id ∧
    l.flags = (if allowPartial then 1 else 0) ∧
    l.vault_bump = (findPA acc.seller_key listing_id).2 ∧
    l.status = 0 ∧
    l.base_decimals = acc.base_mint_decimals ∧
    l.fee_payment_method = fee_payment_method ∧
    l.fee_amount_paid = price_per_token * quantity / 100 ∧
    ((fee_payment_method = 0 ∧ l.x402_payload_hash = List.replicate 32 0) ∨
     (fee_payment_method = 1 ∧ ∃ payload, x402_payload = some payload ∧
       payload.isEmpty = false ∧ l.x402_payload_hash = keccakHash payload)) := by
  by_cases i0 : quantity = 0 ∨ price_per_token = 0
  · simp [initialize_listing, i0] at h
  by_cases i1 : acc.seller_is_signer = false
  · simp [initialize_listing, i0, i1] at h
  by_cases i2 : acc.listing_owner_is_program = false
  · simp [initialize_listing, i0, i1, i2] at h
  by_cases i3 : ∃ x ∈ acc.listing_data, ¬x = 0
  · simp [initialize_listing, i0, i1, i2, i3] at h
  by_cases i4 : acc.system_program_ok = false
  · simp [initialize_listing, i0, i1, i2, i3, i4] at h
  by_cases i5 : acc.vault_authority_key ≠ (findPA acc.seller_key listing_id).1
  · simp [initialize_listing, i0, i1, i2, i3, i4, i5] at h
  by_cases i6 : acc.vault_token_key ≠ ata acc.vault_authority_key acc.base_mint_key
  · simp [initialize_listing, i0, i1, i2, i3, i4, i5, i6] at h
  by_cases i7 : price_per_token * quantity < u128_bound
  case neg =>
    simp [initialize_listing, u128_checked_mul, i0, i1, i2, i3, i4, i5, i6, i7] at h
  by_cases i8 : price_per_token * quantity / 100 < u64_bound
  case neg =>
    simp [initialize_listing, u128_checked_mul, u64_try_from,
      i0, i1, i2, i3, i4, i5, i6, i7, i8] at h
  by_cases i9 : acc.listing_data.length < Listing.LEN
  · rcases fee_payment_method with - | - | n
    · simp [initialize_listing, u128_checked_mul, u64_try_from, serialize_listing,
        i0, i1, i2, i3, i4, i5, i6, i7, i8, i9] at h
    · rcases x402_payload with - | payload
      · simp [initialize_listing, u128_checked_mul, u64_try_from, serialize_listing,
          i0, i1, i2, i3, i4, i5, i6, i7, i8, i9] at h
      · by_cases hpe : payload.isEmpty
        · simp [initialize_listing, u128_checked_mul, u64_try_from, serialize_listing,
            verify_x402_payment, i0, i1, i2, i3, i4, i5, i6, i7, i8, i9, hpe] at h
        · simp [initialize_listing, u128_checked_mul, u64_try_from, serialize_listing,
            verify_x402_payment, i0, i1, i2, i3, i4, i5, i6, i7, i8, i9, hpe] at h
    · simp [initialize_listing, u128_checked_mul, u64_try_from, serialize_listing,
        i0, i1, i2, i3, i4, i5, i6, i7, i8, i9] at h
  rcases fee_payment_method with - | - | n
  · simp [initialize_listing, u128_checked_mul, u64_try_from, serialize_listing,
      i0, i1, i2, i3, i4, i5, i6, i7, i8, i9] at h
    refine ⟨fun hq => i0 (Or.inl hq), fun hp => i0 (Or.inr hp), by simpa using i1,
      by simpa using i2, by simpa using i3, by simpa using i4, by simpa using i5,
      by simpa using i6, i7, i8, by omega, ?_⟩
    rw [← h]
    exact ⟨rfl, rfl, rfl, rfl, rfl, rfl, rfl, rfl, rfl, rfl, rfl, rfl, rfl, rfl,
      Or.inl ⟨rfl, rfl⟩⟩
  · rcases x402_payload with - | payload
    · simp [initialize_listing, u128_checked_mul, u64_try_from, serialize_listing,
        i0, i1, i2, i3, i4, i5, i6, i7, i8, i9] at h
    · by_cases hpe : payload.isEmpty
      · simp [initialize_listing, u128_checked_mul, u64_try_from, serialize_listing,
          verify_x402_payment, i0, i1, i2, i3, i4, i5, i6, i7, i8, i9, hpe] at h
      · simp [initialize_listing, u128_checked_mul, u64_try_from, serialize_listing,
          verify_x402_payment, i0, i1, i2, i3, i4, i5, i6, i7, i8, i9, hpe] at h
        refine ⟨fun hq => i0 (Or.inl hq), fun hp => i0 (Or.inr hp), by simpa using i1,
          by simpa using i2, by simpa using i3, by simpa using i4, by simpa using i5,
          by simpa using i6, i7, i8, by omega, ?_⟩
        rw [← h]
        exact ⟨rfl, rfl, rfl, rfl, rfl, rfl, rfl, rfl, rfl, rfl, rfl, rfl, rfl, rfl,
          Or.inr ⟨rfl, payload, rfl, by simpa using hpe, rfl⟩⟩
  · simp [initialize_listing, u128_checked_mul, u64_try_from, serialize_listing,
      i0, i1, i2, i3, i4, i5, i6, i7, i8, i9] at h

/-- Claim C3: initialization sets `filled = 0` (and trivially `filled ≤
quantity`), deposit and cancel leave `filled` and `quantity` unchanged, and a
successful purchase increases `filled` by its positive purchase quantity
while preserving `filled ≤ quantity`; hence `filled` never decreases across
any sequence of successful operations. -/
theorem filled_monotone
    (findPA : Pubkey → Nat → Pubkey × Nat) (ata : Pubkey → Pubkey → Pubkey)
    (keccakHash : String → List Nat) (accI : InitAccounts)
    (listing_id price quantity : Nat) (ap : Bool) (fm : Nat) (xp : Option String)
    (createPA : Pubkey → Nat → Nat → Option Pubkey)
    (accD : DepositAccounts) (accP : PurchaseAccounts) (accC : CancelAccounts)
    (q : Nat) (lI lD lP lC : Listing) (trD trP trC : List Transfer)
    (hI : initialize_listing findPA ata keccakHash accI listing_id price quantity
      ap fm xp = .ok lI)
    (hD : deposit_tokens accD = .ok (lD, trD))
    (hP : purchase_tokens createPA accP q = .ok (lP, trP))
    (hC : cancel_listing createPA accC = .ok (lC, trC)) :
    lI.filled = 0 ∧ lI.filled ≤ lI.quantity ∧
    lD.filled = accD.listing.stored.filled ∧
    lD.quantity = accD.listing.stored.quantity ∧
    lC.filled = accC.listing.stored.filled ∧
    lC.quantity = accC.listing.stored.quantity ∧
    lP.filled = accP.listing.stored.filled + q ∧ 0 < q ∧
    lP.quantity = accP.listing.stored.quantity ∧
    (accP.listing.stored.filled ≤ accP.listing.stored.quantity →
      lP.filled ≤ lP.quantity) := by
  obtain ⟨-, -, -, -, -, -, -, -, -, -, -, -, -, -, -, -, -, hIf, -, -, -, -, -, -,
      -, -⟩ := initialize_listing_ok findPA ata keccakHash accI listing_id price
        quantity ap fm xp lI hI
  obtain ⟨-, -, -, -, -, -, -, -, -, -, -, -, hlD, -⟩ := deposit_tokens_ok accD lD trD hD
  obtain ⟨-, hq0, -, -, -, -, -, hrem, -, -, -, -, -, -, -, -, -, -, -, -, -, -, -,
      -, -, hlP, -⟩ := purchase_tokens_ok createPA accP q lP trP hP
  obtain ⟨-, -, -, -, -, hlC, -⟩ := cancel_listing_ok createPA accC lC trC hC
  simp only [Listing.remaining] at hrem
  refine ⟨hIf, by omega, ?_, ?_, ?_, ?_, ?_, by omega, ?_, ?_⟩
  · rw [hlD]; rfl
  · rw [hlD]; rfl
  · rw [hlC]; rfl
  · rw [hlC]; rfl
  · rw [hlP]; split <;> rfl
  · rw [hlP]; split <;> rfl
  · intro hle
    rw [hlP]
    split <;> (simp only [Listing.set_status]; omega)

set_option maxRecDepth 8000 in
/-- Witness for C3 at the concrete successful initialize, deposit, purchase
and cancel runs. -/
theorem filled_monotone_witness :
    listing0.filled = 0 ∧ listing0.filled ≤ listing0.quantity ∧
    listing1.filled = depositAcc0.listing.stored.filled ∧
    listing1.quantity = depositAcc0.listing.stored.quantity ∧
    (Listing.set_status listing1 ListingStatus.Cancelled).filled =
      cancelAcc0.listing.stored.filled ∧
    (Listing.set_status listing1 ListingStatus.Cancelled).quantity =
      cancelAcc0.listing.stored.quantity ∧
    ({ listing1 with filled := 20 } : Listing).filled =
      purchaseAcc0.listing.stored.filled + 20 ∧ 0 < 20 ∧
    ({ listing1 with filled := 20 } : Listing).quantity =
      purchaseAcc0.listing.stored.quantity ∧
    (purchaseAcc0.listing.stored.filled ≤ purchaseAcc0.listing.stored.quantity →
      ({ listing1 with filled := 20 } : Listing).filled ≤
        ({ listing1 with filled := 20 } : Listing).quantity) :=
  filled_monotone findPA0 ata0 keccak0 initAcc0 1 100 50 true 0 none
    createPA0 depositAcc0 purchaseAcc0 cancelAcc0 20
    listing0 listing1 { listing1 with filled := 20 }
    (Listing.set_status listing1 ListingStatus.Cancelled)
    [{ source := 201, destination := 202, authority := 5, amount := 50 }]
    [{ source := 302, destination := 301, authority := 6, amount := 2000 },
     { source := 202, destination := 303, authority := 10048, amount := 20 }]
    [{ source := 202, destination := 201, authority := 10048, amount := 50 }]
    (by decide) (by decide) (by decide) (by decide)

/-- The active listing with partial fills disabled. -/
def listing2 : Listing := { listing1 with flags := 0 }

/-- Purchase accounts targeting `listing2` (no partial fills). -/
def purchaseAcc1 : PurchaseAccounts :=
  { purchaseAcc0 with listing := { listingAcct0 with stored := listing2 } }

/-- The active listing with nine base decimals, whose quote amount for small
purchases rounds down to zero. -/
def listing3 : Listing := { listing1 with base_decimals := 9 }

/-- Purchase accounts targeting `listing3`. -/
def purchaseAcc2 : PurchaseAccounts :=
  { purchaseAcc0 with listing := { listingAcct0 with stored := listing3 } }

/-- Claim C4: for a purchase against an `Active` listing, a request above the
remaining amount fails with `InsufficientQuantity`; a request strictly below
the remaining amount with partial fills disabled fails with
`PartialFillDisabled` (the handler aborts, so the record is unchanged); and
consequently a successful purchase on a no-partial-fill listing takes exactly
the full remaining quantity. -/
theorem purchase_quantity_guards
    (createPA : Pubkey → Nat → Nat → Option Pubkey) (acc : PurchaseAccounts) (q : Nat)
    (h1 : acc.buyer_is_signer = true)
    (h2 : acc.listing.owner_is_program = true)
    (h3 : Listing.LEN ≤ acc.listing.data_len)
    (h4 : acc.listing.parse_ok = true)
    (h5 : Listing.status' acc.listing.stored = ListingStatus.Active)
    (h6 : acc.vault_authority_key = acc.listing.stored.vault_authority)
    (hq : q ≠ 0) :
    (Listing.remaining acc.listing.stored < q →
      purchase_tokens createPA acc q = .error (.Custom .InsufficientQuantity)) ∧
    (q < Listing.remaining acc.listing.stored →
      Listing.allowPartial acc.listing.stored = false →
      purchase_tokens createPA acc q = .error (.Custom .PartialFillDisabled)) ∧
    (∀ l' trs, Listing.allowPartial acc.listing.stored = false →
      purchase_tokens createPA acc q = .ok (l', trs) →
      q = Listing.remaining acc.listing.stored) := by
  refine ⟨?_, ?_, ?_⟩
  · intro hlt
    simp [purchase_tokens, deserialize_listing, h1, h2, h4, h5, h6, hq, hlt,
      Nat.not_lt.mpr h3]
  · intro hlt hap
    simp [purchase_tokens, deserialize_listing, h1, h2, h4, h5, h6, hq, hlt, hap,
      Nat.not_lt.mpr h3, Nat.not_lt.mpr (le_of_lt hlt)]
  · intro l' trs hap hok
    obtain ⟨-, -, -, -, -, -, -, hle, himp, -⟩ :=
      purchase_tokens_ok createPA acc q l' trs hok
    by_cases hlt : q < Listing.remaining acc.listing.stored
    · rw [himp hlt] at hap
      exact absurd hap (by simp)
    · omega

set_option maxRecDepth 8000 in
/-- Witness for C4: on the concrete no-partial-fill listing with 50 remaining,
buying 20 fails with `PartialFillDisabled` and buying 60 fails with
`InsufficientQuantity`. -/
theorem purchase_quantity_guards_witness :
    purchase_tokens createPA0 purchaseAcc1 20 = .error (.Custom .PartialFillDisabled) ∧
    purchase_tokens createPA0 purchaseAcc1 60 = .error (.Custom .InsufficientQuantity) :=
  ⟨(purchase_quantity_guards createPA0 purchaseAcc1 20 (by decide) (by decide)
      (by decide) (by decide) (by decide) (by decide) (by decide)).2.1
      (by decide) (by decide),
   (purchase_quantity_guards createPA0 purchaseAcc1 60 (by decide) (by decide)
      (by decide) (by decide) (by decide) (by decide) (by decide)).1 (by decide)⟩

/-- Claim C5: once a purchase reaches the payment computation, the quote
amount owed is `floor(quantity * price_per_token / 10 ^ base_decimals)`
(computed in a 128-bit intermediate, so the unreduced `u64` product cannot
corrupt it); the purchase fails with `AmountOverflow` whenever that floor is
zero or does not fit in 64 bits, and on success the buyer→seller quote
transfer carries exactly that amount. -/
theorem purchase_quote_amount
    (createPA : Pubkey → Nat → Nat → Option Pubkey) (acc : PurchaseAccounts) (q : Nat)
    (h1 : acc.buyer_is_signer = true)
    (h2 : acc.listing.owner_is_program = true)
    (h3 : Listing.LEN ≤ acc.listing.data_len)
    (h4 : acc.listing.parse_ok = true)
    (h5 : Listing.status' acc.listing.stored = ListingStatus.Active)
    (h6 : acc.vault_authority_key = acc.listing.stored.vault_authority)
    (hq : q ≠ 0)
    (hle : q ≤ Listing.remaining acc.listing.stored)
    (hpart : q < Listing.remaining acc.listing.stored →
      Listing.allowPartial acc.listing.stored = true)
    (hq64 : q < u64_bound)
    (hp64 : acc.listing.stored.price_per_token < u64_bound) :
    (q * acc.listing.stored.price_per_token /
        10 ^ acc.listing.stored.base_decimals = 0 →
      purchase_tokens createPA acc q = .error (.Custom .AmountOverflow)) ∧
    (u64_bound ≤ q * acc.listing.stored.price_per_token /
        10 ^ acc.listing.stored.base_decimals →
      purchase_tokens createPA acc q = .error (.Custom .AmountOverflow)) ∧
    (∀ l' trs, purchase_tokens createPA acc q = .ok (l', trs) →
      trs.map Transfer.amount =
        [q * acc.listing.stored.price_per_token /
          10 ^ acc.listing.stored.base_decimals, q]) := by
  have hmax : max (10 ^ acc.listing.stored.base_decimals) 1 =
      10 ^ acc.listing.stored.base_decimals :=
    Nat.max_eq_left (Nat.one_le_pow _ _ (by norm_num))
  have hmul : q * acc.listing.stored.price_per_token < u128_bound := by
    calc q * acc.listing.stored.price_per_token < u64_bound * u64_bound :=
          Nat.mul_lt_mul_of_lt_of_lt hq64 hp64
      _ = u128_bound := by norm_num [u64_bound, u128_bound]
  have hp8 : ¬(q < Listing.remaining acc.listing.stored ∧
      Listing.allowPartial acc.listing.stored = false) := by
    rintro ⟨hlt, hap⟩
    rw [hpart hlt] at hap
    exact absurd hap (by simp)
  refine ⟨?_, ?_, ?_⟩
  · intro h0
    by_cases hd : 10 ^ acc.listing.stored.base_decimals < u128_bound
    · simp [purchase_tokens, deserialize_listing, checked_pow10, u128_checked_mul,
        h1, h2, h4, h5, h6, hq, Nat.not_lt.mpr h3, Nat.not_lt.mpr hle, hp8, hd,
        hmul, hmax, h0]
    · simp [purchase_tokens, deserialize_listing, checked_pow10,
        h1, h2, h4, h5, h6, hq, Nat.not_lt.mpr h3, Nat.not_lt.mpr hle, hp8, hd]
  · intro hbig
    have hpow_le : 10 ^ acc.listing.stored.base_decimals ≤
        q * acc.listing.stored.price_per_token := by
      by_contra hh
      push_neg at hh
      rw [Nat.div_eq_of_lt hh] at hbig
      exact absurd hbig (by norm_num [u64_bound])
    have hd : 10 ^ acc.listing.stored.base_decimals < u128_bound :=
      lt_of_le_of_lt hpow_le hmul
    have hnz : q * acc.listing.stored.price_per_token /
        10 ^ acc.listing.stored.base_decimals ≠ 0 :=
      Nat.pos_iff_ne_zero.mp (lt_of_lt_of_le (by norm_num [u64_bound]) hbig)
    simp [purchase_tokens, deserialize_listing, checked_pow10, u128_checked_mul,
      u64_try_from, h1, h2, h4, h5, h6, hq, Nat.not_lt.mpr h3, Nat.not_lt.mpr hle,
      hp8, hd, hmul, hmax, hnz, Nat.not_lt.mpr hbig]
  · intro l' trs hok
    obtain ⟨-, -, -, -, -, -, -, -, -, -, -, -, -, -, -, -, -, -, -, -, -, -, -, -,
        -, -, htr⟩ := purchase_tokens_ok createPA acc q l' trs hok
    rw [htr]
    simp [hmax]

set_option maxRecDepth 8000 in
/-- Witness for C5: with nine base decimals the quote for 20 units at price
100 floors to zero and the purchase fails with `AmountOverflow`; the concrete
successful purchase pays quote 2000 and receives 20 base units. -/
theorem purchase_quote_amount_witness :
    purchase_tokens createPA0 purchaseAcc2 20 = .error (.Custom .AmountOverflow) ∧
    ([{ source := 302, destination := 301, authority := 6, amount := 2000 },
      { source := 202, destination := 303, authority := 10048, amount := 20 }] :
        List Transfer).map Transfer.amount =
      [20 * purchaseAcc0.listing.stored.price_per_token /
        10 ^ purchaseAcc0.listing.stored.base_decimals, 20] :=
  ⟨(purchase_quote_amount createPA0 purchaseAcc2 20 (by decide) (by decide)
      (by decide) (by decide) (by decide) (by decide) (by decide) (by decide)
      (by decide) (by decide) (by decide)).1 (by decide),
   (purchase_quote_amount createPA0 purchaseAcc0 20 (by decide) (by decide)
      (by decide) (by decide) (by decide) (by decide) (by decide) (by decide)
      (by decide) (by decide) (by decide)).2.2 { listing1 with filled := 20 }
      [{ source := 302, destination := 301, authority := 6, amount := 2000 },
       { source := 202, destination := 303, authority := 10048, amount := 20 }]
      (by decide)⟩

/-- Cancel accounts for the not-yet-deposited `listing0`. -/
def cancelAcc1 : CancelAccounts := { cancelAcc0 with listing := listingAcct0 }

/-- Cancel accounts for a completed listing. -/
def cancelAcc2 : CancelAccounts :=
  { cancelAcc0 with listing := { listingAcct0 with stored := { listing1 with status := 2 } } }

/-- Claim C6: a cancel by the seller from `AwaitingDeposit` cancels the
listing with no transfer; a successful cancel from `Active` cancels and
transfers exactly `quantity − filled` base tokens vault → seller, with no
transfer when that difference is zero; a cancel on a `Completed` or
`Cancelled` listing fails with `InvalidListingStatus`. -/
theorem cancel_behavior
    (createPA : Pubkey → Nat → Nat → Option Pubkey) (acc : CancelAccounts)
    (h1 : acc.seller_is_signer = true)
    (h2 : acc.listing.owner_is_program = true)
    (h3 : Listing.LEN ≤ acc.listing.data_len)
    (h4 : acc.listing.parse_ok = true)
    (h5 : acc.listing.stored.seller = acc.seller_key) :
    (Listing.status' acc.listing.stored = ListingStatus.AwaitingDeposit →
      cancel_listing createPA acc =
        .ok (Listing.set_status acc.listing.stored ListingStatus.Cancelled, [])) ∧
    (∀ l' trs, Listing.status' acc.listing.stored = ListingStatus.Active →
      cancel_listing createPA acc = .ok (l', trs) →
      l' = Listing.set_status acc.listing.stored ListingStatus.Cancelled ∧
      ((acc.listing.stored.quantity - acc.listing.stored.filled = 0 ∧ trs = []) ∨
       (0 < acc.listing.stored.quantity - acc.listing.stored.filled ∧
        trs = [{ source := acc.vault_token_key, destination := acc.seller_token_key,
                 authority := acc.vault_authority_key,
                 amount := acc.listing.stored.quantity -
                   acc.listing.stored.filled }]))) ∧
    (Listing.status' acc.listing.stored = ListingStatus.Completed ∨
      Listing.status' acc.listing.stored = ListingStatus.Cancelled →
      cancel_listing createPA acc = .error (.Custom .InvalidListingStatus)) := by
  refine ⟨?_, ?_, ?_⟩
  · intro hst
    simp [cancel_listing, deserialize_listing, serialize_listing, h1, h2, h4, h5,
      hst, Nat.not_lt.mpr h3]
  · intro l' trs hst hok
    obtain ⟨-, -, -, -, -, hl, hcases⟩ := cancel_listing_ok createPA acc l' trs hok
    refine ⟨hl, ?_⟩
    rcases hcases with ⟨hA, -⟩ | ⟨-, hrem, htr⟩ | ⟨-, hrem, -, -, -, -, -, htr⟩
    · rw [hst] at hA
      exact ListingStatus.noConfusion hA
    · exact Or.inl ⟨by simpa [Listing.remaining] using hrem, htr⟩
    · refine Or.inr ⟨by simpa [Listing.remaining] using hrem, ?_⟩
      simpa [Listing.remaining] using htr
  · intro hst
    rcases hst with hst | hst <;>
      simp [cancel_listing, deserialize_listing, h1, h2, h4, h5, hst,
        Nat.not_lt.mpr h3]

set_option maxRecDepth 8000 in
/-- Witness for C6: concrete cancels from `AwaitingDeposit` (no transfer),
from `Active` with 50 remaining (one transfer of 50), and from `Completed`
(fails with `InvalidListingStatus`). -/
theorem cancel_behavior_witness :
    cancel_listing createPA0 cancelAcc1 =
      .ok (Listing.set_status listing0 ListingStatus.Cancelled, []) ∧
    (Listing.set_status listing1 ListingStatus.Cancelled =
      Listing.set_status cancelAcc0.listing.stored ListingStatus.Cancelled ∧
     ((cancelAcc0.listing.stored.quantity - cancelAcc0.listing.stored.filled = 0 ∧
        ([{ source := 202, destination := 201, authority := 10048, amount := 50 }] :
          List Transfer) = []) ∨
      (0 < cancelAcc0.listing.stored.quantity - cancelAcc0.listing.stored.filled ∧
        ([{ source := 202, destination := 201, authority := 10048, amount := 50 }] :
          List Transfer) =
          [{ source := cancelAcc0.vault_token_key,
             destination := cancelAcc0.seller_token_key,
             authority := cancelAcc0.vault_authority_key,
             amount := cancelAcc0.listing.stored.quantity -
               cancelAcc0.listing.stored.filled }]))) ∧
    cancel_listing createPA0 cancelAcc2 = .error (.Custom .InvalidListingStatus) :=
  ⟨(cancel_behavior createPA0 cancelAcc1 (by decide) (by decide) (by decide)
      (by decide) (by decide)).1 (by decide),
   (cancel_behavior createPA0 cancelAcc0 (by decide) (by decide) (by decide)
      (by decide) (by decide)).2.1
      (Listing.set_status listing1 ListingStatus.Cancelled)
      [{ source := 202, destination := 201, authority := 10048, amount := 50 }]
      (by decide) (by decide),
   (cancel_behavior createPA0 cancelAcc2 (by decide) (by decide) (by decide)
      (by decide) (by decide)).2.2 (Or.inl (by decide))⟩

/-- Claim C7: provided the digest of a non-empty payload is never all-zero,
a successful initialization stores an all-zero `x402_payload_hash` exactly
when the fee method is `NativeSol` (0), and the digest of the supplied
non-empty payload exactly when it is `X402` (1); initialization fails with
`InvalidX402Proof` exactly when the method is `X402` and the payload is
absent or empty (a non-empty payload succeeds), and an unrecognized method
fails with `InvalidInstructionData`. -/
theorem x402_hash_iff
    (findPA : Pubkey → Nat → Pubkey × Nat) (ata : Pubkey → Pubkey → Pubkey)
    (keccakHash : String → List Nat) (acc : InitAccounts)
    (listing_id price quantity : Nat) (ap : Bool) (fm : Nat) (xp : Option String)
    (hH : ∀ s : String, s.isEmpty = false → keccakHash s ≠ List.replicate 32 0)
    (hok : init_accounts_ok findPA ata acc listing_id)
    (hq : quantity ≠ 0) (hp : price ≠ 0)
    (hp64 : price < u64_bound) (hq64 : quantity < u64_bound)
    (hfee : price * quantity / 100 < u64_bound)
    (hlen : Listing.LEN ≤ acc.listing_data.length) :
    (∀ l, initialize_listing findPA ata keccakHash acc listing_id price quantity
        ap fm xp = .ok l →
      (l.x402_payload_hash = List.replicate 32 0 ↔ l.fee_payment_method = 0) ∧
      l.fee_payment_method = fm ∧
      (l.fee_payment_method = 1 → ∃ s, xp = some s ∧ s.isEmpty = false ∧
        l.x402_payload_hash = keccakHash s)) ∧
    (fm = 1 → xp = none →
      initialize_listing findPA ata keccakHash acc listing_id price quantity
        ap fm xp = .error (.Custom .InvalidX402Proof)) ∧
    (∀ s, fm = 1 → xp = some s → s.isEmpty = true →
      initialize_listing findPA ata keccakHash acc listing_id price quantity
        ap fm xp = .error (.Custom .InvalidX402Proof)) ∧
    (∀ s, fm = 1 → xp = some s → s.isEmpty = false →
      ∃ l, initialize_listing findPA ata keccakHash acc listing_id price quantity
        ap fm xp = .ok l ∧ l.x402_payload_hash = keccakHash s) ∧
    (fm = 0 →
      ∃ l, initialize_listing findPA ata keccakHash acc listing_id price quantity
        ap fm xp = .ok l ∧ l.x402_payload_hash = List.replicate 32 0) ∧
    (2 ≤ fm →
      initialize_listing findPA ata keccakHash acc listing_id price quantity
        ap fm xp = .error (.Custom .InvalidInstructionData)) := by
  obtain ⟨k1, k2, k3, k4, k5, k6⟩ := hok
  have hmul : price * quantity < u128_bound := by
    calc price * quantity < u64_bound * u64_bound :=
          Nat.mul_lt_mul_of_lt_of_lt hp64 hq64
      _ = u128_bound := by norm_num [u64_bound, u128_bound]
  have k3' : ¬∃ x ∈ acc.listing_data, ¬x = 0 := by
    simpa using k3
  refine ⟨?_, ?_, ?_, ?_, ?_, ?_⟩
  · intro l hl
    obtain ⟨-, -, -, -, -, -, -, -, -, -, -, -, -, -, -, -, -, -, -, -, -, -, -,
        hfm, -, hcase⟩ := initialize_listing_ok findPA ata keccakHash acc
          listing_id price quantity ap fm xp l hl
    rcases hcase with ⟨hfm0, hzero⟩ | ⟨hfm1, s, hxp, hse, hhash⟩
    · rw [hfm, hfm0]
      exact ⟨by simp [hzero], rfl, fun h01 => absurd h01 (by omega)⟩
    · rw [hfm, hfm1]
      refine ⟨?_, rfl, fun _ => ⟨s, hxp, hse, hhash⟩⟩
      rw [hhash]
      exact iff_of_false (hH s hse) (by omega)
  · rintro rfl rfl
    simp [initialize_listing, u128_checked_mul, u64_try_from, hq, hp, k1, k2, k3',
      k4, k5, k6, hmul, hfee]
  · rintro s rfl rfl hse
    simp [initialize_listing, u128_checked_mul, u64_try_from, verify_x402_payment,
      hq, hp, k1, k2, k3', k4, k5, k6, hmul, hfee, hse]
  · rintro s rfl rfl hse
    simp [initialize_listing, u128_checked_mul, u64_try_from, verify_x402_payment,
      serialize_listing, hq, hp, k1, k2, k3', k4, k5, k6, hmul, hfee, hse,
      Nat.not_lt.mpr hlen]
  · rintro rfl
    simp [initialize_listing, u128_checked_mul, u64_try_from, serialize_listing,
      hq, hp, k1, k2, k3', k4, k5, k6, hmul, hfee, Nat.not_lt.mpr hlen]
  · intro hfm2
    obtain ⟨n, rfl⟩ : ∃ n, fm = n + 2 := ⟨fm - 2, by omega⟩
    simp [initialize_listing, u128_checked_mul, u64_try_from, hq, hp, k1, k2, k3',
      k4, k5, k6, hmul, hfee]

set_option maxRecDepth 8000 in
/-- Witness for C7: with the x402 method, an absent payload fails, a
non-empty payload succeeds and stores its digest, and fee method 2 fails
with `InvalidInstructionData`. -/
theorem x402_hash_iff_witness :
    initialize_listing findPA0 ata0 keccak0 initAcc0 1 100 50 true 1 none =
      .error (.Custom .InvalidX402Proof) ∧
    (∃ l, initialize_listing findPA0 ata0 keccak0 initAcc0 1 100 50 true 1
        (some "proof") = .ok l ∧ l.x402_payload_hash = keccak0 "proof") ∧
    initialize_listing findPA0 ata0 keccak0 initAcc0 1 100 50 true 2 none =
      .error (.Custom .InvalidInstructionData) := by
  have hH : ∀ s : String, s.isEmpty = false → keccak0 s ≠ List.replicate 32 0 := by
    intro s _ hcontra
    simp [keccak0, List.replicate] at hcontra
  refine ⟨?_, ?_, ?_⟩
  · exact (x402_hash_iff findPA0 ata0 keccak0 initAcc0 1 100 50 true 1 none hH
      (by unfold init_accounts_ok; decide) (by decide) (by decide) (by decide)
      (by decide) (by decide) (by decide)).2.1 rfl rfl
  · exact (x402_hash_iff findPA0 ata0 keccak0 initAcc0 1 100 50 true 1
      (some "proof") hH (by unfold init_accounts_ok; decide) (by decide)
      (by decide) (by decide) (by decide) (by decide) (by decide)).2.2.2.1
      "proof" rfl rfl (by decide)
  · exact (x402_hash_iff findPA0 ata0 keccak0 initAcc0 1 100 50 true 2 none hH
      (by unfold init_accounts_ok; decide) (by decide) (by decide) (by decide)
      (by decide) (by decide) (by decide)).2.2.2.2.2 (by omega)

/-- Purchase accounts supplying a wrong custody address. -/
def purchaseAcc3 : PurchaseAccounts := { purchaseAcc0 with vault_authority_key := 999 }

/-- Claim C8: vault transfers are only authorized by the stored custody
address.  A purchase with a custody address different from the stored
`vault_authority` aborts with `IncorrectAuthority` before any transfer; a
successful purchase used the stored address and its `invoke_signed`
re-derived the PDA onto exactly that address.  For cancel — whose stored
`vault_authority` is the PDA re-derived from (seller, listing_id, stored
bump), as established at initialization — any successful run that issued a
transfer supplied exactly the stored custody address; an aborted run issues
no transfer at all. -/
theorem vault_authority_guard
    (createPA : Pubkey → Nat → Nat → Option Pubkey)
    (accP : PurchaseAccounts) (accC : CancelAccounts) (q : Nat)
    (hP1 : accP.buyer_is_signer = true)
    (hP2 : accP.listing.owner_is_program = true)
    (hP3 : Listing.LEN ≤ accP.listing.data_len)
    (hP4 : accP.listing.parse_ok = true)
    (hP5 : Listing.status' accP.listing.stored = ListingStatus.Active)
    (hPq : q ≠ 0)
    (hC : createPA accC.listing.stored.seller accC.listing.stored.listing_id
      accC.listing.stored.vault_bump = some accC.listing.stored.vault_authority) :
    (accP.vault_authority_key ≠ accP.listing.stored.vault_authority →
      purchase_tokens createPA accP q = .error (.Custom .IncorrectAuthority)) ∧
    (∀ l' trs, purchase_tokens createPA accP q = .ok (l', trs) →
      accP.vault_authority_key = accP.listing.stored.vault_authority ∧
      createPA accP.listing.stored.seller accP.listing.stored.listing_id
        accP.listing.stored.vault_bump = some accP.listing.stored.vault_authority) ∧
    (∀ l' trs, cancel_listing createPA accC = .ok (l', trs) → trs ≠ [] →
      accC.vault_authority_key = accC.listing.stored.vault_authority) := by
  refine ⟨?_, ?_, ?_⟩
  · intro hne
    simp [purchase_tokens, deserialize_listing, hP1, hP2, hP4, hP5, hPq, hne,
      Nat.not_lt.mpr hP3]
  · intro l' trs hok
    obtain ⟨-, -, -, -, -, -, hv, -, -, -, -, -, -, -, -, -, -, -, -, -, -, -, -,
        hcp, -, -, -⟩ := purchase_tokens_ok createPA accP q l' trs hok
    rw [hv] at hcp
    exact ⟨hv, hcp⟩
  · intro l' trs hok htrne
    obtain ⟨-, -, -, -, -, -, hcases⟩ := cancel_listing_ok createPA accC l' trs hok
    rcases hcases with ⟨-, htr⟩ | ⟨-, -, htr⟩ | ⟨-, -, -, -, -, -, hcp, -⟩
    · exact absurd htr htrne
    · exact absurd htr htrne
    · have h2 := hC.symm.trans hcp
      injection h2 with h3
      exact h3.symm

set_option maxRecDepth 8000 in
/-- Witness for C8: the concrete purchase with custody address 999 instead of
10048 fails with `IncorrectAuthority`; the successful purchase and the
successful transferring cancel both used the stored custody address, onto
which the PDA re-derivation lands. -/
theorem vault_authority_guard_witness :
    purchase_tokens createPA0 purchaseAcc3 20 = .error (.Custom .IncorrectAuthority) ∧
    (purchaseAcc0.vault_authority_key = purchaseAcc0.listing.stored.vault_authority ∧
      createPA0 purchaseAcc0.listing.stored.seller
        purchaseAcc0.listing.stored.listing_id
        purchaseAcc0.listing.stored.vault_bump =
        some purchaseAcc0.listing.stored.vault_authority) ∧
    cancelAcc0.vault_authority_key = cancelAcc0.listing.stored.vault_authority :=
  ⟨(vault_authority_guard createPA0 purchaseAcc3 cancelAcc0 20 (by decide)
      (by decide) (by decide) (by decide) (by decide) (by decide) (by decide)).1
      (by decide),
   (vault_authority_guard createPA0 purchaseAcc0 cancelAcc0 20 (by decide)
      (by decide) (by decide) (by decide) (by decide) (by decide) (by decide)).2.1
      { listing1 with filled := 20 }
      [{ source := 302, destination := 301, authority := 6, amount := 2000 },
       { source := 202, destination := 303, authority := 10048, amount := 20 }]
      (by decide),
   (vault_authority_guard createPA0 purchaseAcc0 cancelAcc0 20 (by decide)
      (by decide) (by decide) (by decide) (by decide) (by decide) (by decide)).2.2
      (Listing.set_status listing1 ListingStatus.Cancelled)
      [{ source := 202, destination := 201, authority := 10048, amount := 50 }]
      (by decide) (by decide)⟩

/-- A listing account whose backing record is only 100 bytes. -/
def shortAcct : ListingAccount :=
  { owner_is_program := true, data_len := 100, parse_ok := true, stored := listing0 }

/-- Deposit accounts over the short record. -/
def depositAccShort : DepositAccounts := { depositAcc0 with listing := shortAcct }

/-- Purchase accounts over the short record. -/
def purchaseAccShort : PurchaseAccounts := { purchaseAcc0 with listing := shortAcct }

/-- Cancel accounts over the short record. -/
def cancelAccShort : CancelAccounts := { cancelAcc0 with listing := shortAcct }

/-- Counterexample for C9: the persisted record size `Listing::LEN`
(4×32 + 4×8 + 5×1 + 8 + 32 bytes) is 205, not 196. -/
theorem listing_len_not_196 : Listing.LEN ≠ 196 := by decide

/-- Claim C9 (amended to the actual size): the persisted `Listing` layout is
a fixed-size structure of exactly 205 bytes, and every operation that reads
a listing rejects a record shorter than this with `AccountLengthMismatch`. -/
theorem listing_len_and_short_records
    (createPA : Pubkey → Nat → Nat → Option Pubkey)
    (a : ListingAccount) (accD : DepositAccounts) (accP : PurchaseAccounts)
    (accC : CancelAccounts) (q : Nat)
    (ha1 : a.owner_is_program = true) (ha2 : a.data_len < Listing.LEN)
    (hD1 : accD.seller_is_signer = true)
    (hD2 : accD.listing.owner_is_program = true)
    (hD3 : accD.listing.data_len < Listing.LEN)
    (hP1 : accP.buyer_is_signer = true) (hPq : q ≠ 0)
    (hP2 : accP.listing.owner_is_program = true)
    (hP3 : accP.listing.data_len < Listing.LEN)
    (hC1 : accC.seller_is_signer = true)
    (hC2 : accC.listing.owner_is_program = true)
    (hC3 : accC.listing.data_len < Listing.LEN) :
    Listing.LEN = 205 ∧
    deserialize_listing a = .error (.Custom .AccountLengthMismatch) ∧
    deposit_tokens accD = .error (.Custom .AccountLengthMismatch) ∧
    purchase_tokens createPA accP q = .error (.Custom .AccountLengthMismatch) ∧
    cancel_listing createPA accC = .error (.Custom .AccountLengthMismatch) := by
  refine ⟨by decide, ?_, ?_, ?_, ?_⟩
  · simp [deserialize_listing, ha1, ha2]
  · simp [deposit_tokens, deserialize_listing, hD1, hD2, hD3]
  · simp [purchase_tokens, deserialize_listing, hP1, hPq, hP2, hP3]
  · simp [cancel_listing, deserialize_listing, hC1, hC2, hC3]

set_option maxRecDepth 8000 in
/-- Witness for C9 (amended) on a concrete 100-byte record. -/
theorem listing_len_and_short_records_witness :
    Listing.LEN = 205 ∧
    deserialize_listing shortAcct = .error (.Custom .AccountLengthMismatch) ∧
    deposit_tokens depositAccShort = .error (.Custom .AccountLengthMismatch) ∧
    purchase_tokens createPA0 purchaseAccShort 20 =
      .error (.Custom .AccountLengthMismatch) ∧
    cancel_listing createPA0 cancelAccShort = .error (.Custom .AccountLengthMismatch) :=
  listing_len_and_short_records createPA0 shortAcct depositAccShort purchaseAccShort
    cancelAccShort 20 (by decide) (by decide) (by decide) (by decide) (by decide)
    (by decide) (by decide) (by decide) (by decide) (by decide) (by decide)
    (by decide)

/-- The listing with an out-of-range status byte. -/
def badStatusAcct : ListingAccount :=
  { listingAcct0 with stored := { listing0 with status := 7 } }

/-- Deposit accounts over the out-of-range-status record. -/
def depositAccBad : DepositAccounts := { depositAcc0 with listing := badStatusAcct }

/-- Purchase accounts over the out-of-range-status record. -/
def purchaseAccBad : PurchaseAccounts := { purchaseAcc0 with listing := badStatusAcct }

/-- Cancel accounts over the out-of-range-status record. -/
def cancelAccBad : CancelAccounts := { cancelAcc0 with listing := badStatusAcct }

/-- Claim C10: a persisted status byte outside 0–3 decodes to `Cancelled`,
so such a listing is terminal: deposit, purchase and cancel on it all fail
with `InvalidListingStatus`, and the aborted handlers leave the record
unchanged. -/
theorem invalid_status_terminal
    (createPA : Pubkey → Nat → Nat → Option Pubkey)
    (accD : DepositAccounts) (accP : PurchaseAccounts) (accC : CancelAccounts)
    (q : Nat)
    (hD0 : 4 ≤ accD.listing.stored.status)
    (hP0 : 4 ≤ accP.listing.stored.status)
    (hC0 : 4 ≤ accC.listing.stored.status)
    (hD1 : accD.seller_is_signer = true)
    (hD2 : accD.listing.owner_is_program = true)
    (hD3 : Listing.LEN ≤ accD.listing.data_len)
    (hD4 : accD.listing.parse_ok = true)
    (hP1 : accP.buyer_is_signer = true) (hPq : q ≠ 0)
    (hP2 : accP.listing.owner_is_program = true)
    (hP3 : Listing.LEN ≤ accP.listing.data_len)
    (hP4 : accP.listing.parse_ok = true)
    (hC1 : accC.seller_is_signer = true)
    (hC2 : accC.listing.owner_is_program = true)
    (hC3 : Listing.LEN ≤ accC.listing.data_len)
    (hC4 : accC.listing.parse_ok = true)
    (hC5 : accC.listing.stored.seller = accC.seller_key) :
    (∀ l : Listing, 4 ≤ l.status → Listing.status' l = ListingStatus.Cancelled) ∧
    deposit_tokens accD = .error (.Custom .InvalidListingStatus) ∧
    purchase_tokens createPA accP q = .error (.Custom .InvalidListingStatus) ∧
    cancel_listing createPA accC = .error (.Custom .InvalidListingStatus) := by
  have hdec : ∀ l : Listing, 4 ≤ l.status →
      Listing.status' l = ListingStatus.Cancelled := by
    intro l hl
    obtain ⟨n, hn⟩ : ∃ n, l.status = n + 4 := ⟨l.status - 4, by omega⟩
    unfold Listing.status'
    rw [hn]
    rfl
  refine ⟨hdec, ?_, ?_, ?_⟩
  · simp [deposit_tokens, deserialize_listing, hD1, hD2, hD4, hdec _ hD0,
      Nat.not_lt.mpr hD3]
  · simp [purchase_tokens, deserialize_listing, hP1, hPq, hP2, hP4, hdec _ hP0,
      Nat.not_lt.mpr hP3]
  · simp [cancel_listing, deserialize_listing, hC1, hC2, hC4, hC5, hdec _ hC0,
      Nat.not_lt.mpr hC3]

set_option maxRecDepth 8000 in
/-- Witness for C10 on the concrete listing with status byte 7. -/
theorem invalid_status_terminal_witness :
    Listing.status' badStatusAcct.stored = ListingStatus.Cancelled ∧
    deposit_tokens depositAccBad = .error (.Custom .InvalidListingStatus) ∧
    purchase_tokens createPA0 purchaseAccBad 20 =
      .error (.Custom .InvalidListingStatus) ∧
    cancel_listing createPA0 cancelAccBad = .error (.Custom .InvalidListingStatus) :=
  have h := invalid_status_terminal createPA0 depositAccBad purchaseAccBad
    cancelAccBad 20 (by decide) (by decide) (by decide) (by decide) (by decide)
    (by decide) (by decide) (by decide) (by decide) (by decide) (by decide)
    (by decide) (by decide) (by decide) (by decide) (by decide) (by decide)
  ⟨h.1 badStatusAcct.stored (by decide), h.2.1, h.2.2.1, h.2.2.2⟩

end X402Escrow
